import Mathlib

/-!
Shallow embedding of the CompositionSurfaceFactory surface factory
(src/CompositionSurfaceFactory/SurfaceFactory.cpp) and of the parts of its
external graphics backend that the factory calls.  Factory methods are
modelled as functions on an explicit state, returning the updated state
together with a trace of backend events (lock acquisitions and releases,
device and surface operations).  Faults (null dereferences, invalid
arguments, backend decode failures) are modelled with Except.
-/

namespace CSF

/-- Faults an operation can raise: a null dereference of a C++/CX hat
reference, an InvalidArgument condition, or a failure of the external
backend (for example a failed decode). -/
inductive Fault
  | nullReference
  | invalidArgument
  | backendFailure
deriving DecidableEq, Repr

/-- Windows.Foundation.Size as used by the factory: either the sentinel
Size.Empty or a concrete width and height.  Size.IsEmpty is true exactly
for the sentinel; a concrete size of zero width and height is not empty. -/
inductive Size
  | empty
  | mk (width height : Int)
deriving DecidableEq, Repr

def Size.IsEmpty : Size → Bool
  | .empty => true
  | .mk _ _ => false

/-- A color with alpha, red, green, blue channels. -/
structure Color where
  a : Nat
  r : Nat
  g : Nat
  b : Nat
deriving DecidableEq, Repr

/-- Windows.UI.Colors.Transparent: fully transparent. -/
def Colors.Transparent : Color := ⟨0, 0, 0, 0⟩

/-- A rectangle with origin and extent, as passed to DrawImage. -/
structure Rect where
  x : Int
  y : Int
  width : Int
  height : Int
deriving DecidableEq, Repr

/-- The interpolation modes the factory exposes. -/
inductive InterpolationMode
  | nearestNeighbor
  | linear
  | cubic
  | multiSampleLinear
  | anisotropic
  | highQualityCubic
deriving DecidableEq, Repr

/-- The interpolation modes of the backend draw sessions. -/
inductive CanvasImageInterpolation
  | nearestNeighbor
  | linear
  | cubic
  | multiSampleLinear
  | anisotropic
  | highQualityCubic
deriving DecidableEq, Repr

/-- Modelled from the spec: InterpolationModeHelper::GetCanvasImageInterpolation
is repository code that is not under src/ (only its caller DrawBitmap is).
The spec asks for the requested interpolation to be handed to the backend
draw call, enumerating nearest-neighbor and linear tiers among others, so the
helper is modelled as the name-for-name mapping between the two enumerations. -/
def InterpolationModeHelper.GetCanvasImageInterpolation :
    InterpolationMode → CanvasImageInterpolation
  | .nearestNeighbor => .nearestNeighbor
  | .linear => .linear
  | .cubic => .cubic
  | .multiSampleLinear => .multiSampleLinear
  | .anisotropic => .anisotropic
  | .highQualityCubic => .highQualityCubic

/-- Pixel formats of drawing surfaces and byte-sourced bitmaps. -/
inductive PixelFormat
  | B8G8R8A8UIntNormalized
  | R8G8B8A8UIntNormalized
deriving DecidableEq, Repr

/-- Alpha modes of drawing surfaces. -/
inductive AlphaMode
  | Premultiplied
  | Straight
  | Ignore
deriving DecidableEq, Repr

/-- A Win2D CanvasDevice: an id for the underlying handle plus the
ForceSoftwareRenderer flag it was constructed with. -/
structure CanvasDevice where
  id : Nat
  ForceSoftwareRenderer : Bool
deriving DecidableEq, Repr

/-- A CompositionGraphicsDevice: its handle id, the compositor it was
created against, and the id of the canvas device currently backing it. -/
structure CompositionGraphicsDevice where
  id : Nat
  Compositor : Nat
  canvasDeviceId : Nat
deriving DecidableEq, Repr

/-- The device-loss watcher: the id of the device it is currently
watching, if any. -/
structure DeviceLostHelper where
  watching : Option Nat
deriving DecidableEq, Repr

/-- Options for owning-mode construction. -/
structure SurfaceFactoryOptions where
  UseSoftwareRenderer : Bool
deriving DecidableEq, Repr

/-- The pixel content of a drawing surface, abstractly: either never
painted, cleared to a color, or showing a bitmap composited by the last
draw session. -/
inductive SurfaceContent
  | uninitialized
  | cleared (c : Color)
  | image (bitmapId : Nat) (dest src : Rect) (opacity : ℚ)
      (interp : CanvasImageInterpolation)
deriving DecidableEq, Repr

/-- A drawing surface: handle id, current size, pixel format, alpha mode
and abstract pixel content. -/
structure SurfaceRec where
  id : Nat
  width : Int
  height : Int
  fmt : PixelFormat
  alpha : AlphaMode
  content : SurfaceContent
deriving DecidableEq, Repr

/-- A URI together with what the external decoder would produce for it:
the decoded bitmap dimensions, or none when decoding fails. -/
structure UriData where
  id : Nat
  decoded : Option (Int × Int)
deriving DecidableEq, Repr

/-- A Win2D CanvasBitmap: handle id and native pixel dimensions. -/
structure CanvasBitmap where
  id : Nat
  width : Int
  height : Int
deriving DecidableEq, Repr

/-- Backend events recorded by the embedding, in the order the factory
issues them. -/
inductive Event
  | lockAcquire (lockId : Nat)
  | lockRelease (lockId : Nat)
  | createCanvasDevice (devId : Nat) (software : Bool)
  | watchDevice (devId : Nat)
  | stopWatching
  | createGraphicsDevice (gid devId : Nat)
  | setCanvasDevice (gid devId : Nat)
  | subscribeDeviceReplaced (gid : Nat)
  | unsubscribeDeviceReplaced (gid : Nat)
  | subscribeDeviceLost
  | createDrawingSurface (sid : Nat) (width height : Int)
      (fmt : PixelFormat) (alpha : AlphaMode)
  | resize (sid : Nat) (width height : Int)
  | clear (sid : Nat) (c : Color)
  | drawImage (sid bitmapId : Nat) (dest src : Rect) (opacity : ℚ)
      (interp : CanvasImageInterpolation)
  | loadBitmap (uriId bitmapId : Nat)
  | createBitmapFromBytes (bitmapId : Nat)
  | disposeCanvasDevice (devId : Nat)
  | disposeGraphicsDevice (gid : Nat)
deriving DecidableEq, Repr

/-- Does an event mutate the shared device, compositing-device or surface
state (as opposed to lock bookkeeping and pure notifications)? -/
def Event.mutatesState : Event → Bool
  | .createCanvasDevice _ _ => true
  | .watchDevice _ => true
  | .stopWatching => true
  | .createGraphicsDevice _ _ => true
  | .setCanvasDevice _ _ => true
  | .createDrawingSurface _ _ _ _ _ => true
  | .resize _ _ _ => true
  | .clear _ _ => true
  | .drawImage _ _ _ _ _ _ => true
  | .disposeCanvasDevice _ => true
  | .disposeGraphicsDevice _ => true
  | _ => false

/-- Is an event a lock acquisition or release? -/
def Event.isLockEvent : Event → Bool
  | .lockAcquire _ => true
  | .lockRelease _ => true
  | _ => false

/-- Is an event a re-pointing of a compositing device at a new canvas
device? -/
def Event.isSetCanvasDevice : Event → Bool
  | .setCanvasDevice _ _ => true
  | _ => false

/-- Is an event a disposal of a device or a watcher stop? -/
def Event.isTeardownOfOwned : Event → Bool
  | .stopWatching => true
  | .disposeCanvasDevice _ => true
  | .disposeGraphicsDevice _ => true
  | _ => false

/-- Scan a trace keeping track of the lock depth; every state-mutating
event must occur at positive depth and releases must match acquisitions. -/
def underLockAux : Nat → List Event → Bool
  | _, [] => true
  | d, Event.lockAcquire _ :: r => underLockAux (d + 1) r
  | d, Event.lockRelease _ :: r =>
      match d with
      | 0 => false
      | d + 1 => underLockAux d r
  | d, e :: r => (!e.mutatesState || decide (0 < d)) && underLockAux d r

/-- Every mutating event of the trace happens while the lock is held. -/
def underLock (tr : List Event) : Bool := underLockAux 0 tr

/-- The state of one SurfaceFactory instance together with the backend
resources it can reach.  The m-prefixed fields mirror the member
variables of the C++ class; nextId is the allocator for fresh handle
ids; surfaces is the backend table of drawing surfaces the factory
created. -/
structure FactoryS where
  nextId : Nat
  m_compositor : Option Nat
  m_drawingLock : Option Nat
  m_isGraphicsDeviceCreator : Bool
  m_deviceLostHelper : Option DeviceLostHelper
  m_canvasDevice : Option CanvasDevice
  m_graphicsDevice : Option CompositionGraphicsDevice
  m_deviceReplacedSubscribed : Bool
  surfaces : List SurfaceRec
deriving DecidableEq, Repr

/-- Look a surface up by handle id. -/
def FactoryS.findSurface (s : FactoryS) (sid : Nat) : Option SurfaceRec :=
  s.surfaces.find? (fun r => r.id = sid)

/-- Replace the surface with handle id sid by the given record. -/
def FactoryS.updateSurface (s : FactoryS) (sid : Nat) (srec : SurfaceRec) :
    FactoryS :=
  { s with surfaces := s.surfaces.map (fun r => if r.id = sid then srec else r) }

namespace SurfaceFactory

/-- SurfaceFactory::CreateDevice: when the factory has a compositor and is
the graphics-device creator, create the canvas device from the options
software-renderer flag and begin watching it (if none exists yet), then
create the composition graphics device over it and subscribe to its
RenderingDeviceReplaced event (if none exists yet). -/
def CreateDevice (s : FactoryS) (options : SurfaceFactoryOptions) :
    Except Fault (FactoryS × List Event) :=
  if s.m_compositor.isSome && s.m_isGraphicsDeviceCreator then
    match s.m_deviceLostHelper with
    | none => .error .nullReference
    | some _ =>
      let (s1, tr1) :=
        match s.m_canvasDevice with
        | some _ => (s, ([] : List Event))
        | none =>
          let devId := s.nextId
          ({ s with nextId := s.nextId + 1,
                    m_canvasDevice := some ⟨devId, options.UseSoftwareRenderer⟩,
                    m_deviceLostHelper := some ⟨some devId⟩ },
           [Event.createCanvasDevice devId options.UseSoftwareRenderer,
            Event.watchDevice devId])
      match s1.m_graphicsDevice with
      | some _ => .ok (s1, tr1)
      | none =>
        match s1.m_compositor, s1.m_canvasDevice with
        | some comp, some dev =>
          let gid := s1.nextId
          .ok ({ s1 with nextId := s1.nextId + 1,
                         m_graphicsDevice := some ⟨gid, comp, dev.id⟩,
                         m_deviceReplacedSubscribed := true },
               tr1 ++ [Event.createGraphicsDevice gid dev.id,
                       Event.subscribeDeviceReplaced gid])
        | _, _ => .error .nullReference
  else .ok (s, [])

/-- The owning-mode constructor SurfaceFactory(compositor, options): store
the compositor, allocate a fresh Lock, mark the factory as the
graphics-device creator, allocate the device-lost helper and subscribe to
its DeviceLost event, then run CreateDevice.  nextId seeds the handle
allocator. -/
def ctorFromCompositor (nextId compositor : Nat)
    (options : SurfaceFactoryOptions) : Except Fault (FactoryS × List Event) :=
  let lockId := nextId
  let s0 : FactoryS :=
    { nextId := nextId + 1
      m_compositor := some compositor
      m_drawingLock := some lockId
      m_isGraphicsDeviceCreator := true
      m_deviceLostHelper := some ⟨none⟩
      m_canvasDevice := none
      m_graphicsDevice := none
      m_deviceReplacedSubscribed := false
      surfaces := [] }
  match CreateDevice s0 options with
  | .error e => .error e
  | .ok (s1, tr) => .ok (s1, Event.subscribeDeviceLost :: tr)

/-- SurfaceFactory::CreateFromCompositor(compositor): builds options with
UseSoftwareRenderer set to false and delegates to the owning-mode
constructor. -/
def CreateFromCompositor (nextId compositor : Nat) :
    Except Fault (FactoryS × List Event) :=
  ctorFromCompositor nextId compositor { UseSoftwareRenderer := false }

/-- SurfaceFactory::CreateFromCompositor(compositor, options). -/
def CreateFromCompositorWithOptions (nextId compositor : Nat)
    (options : SurfaceFactoryOptions) : Except Fault (FactoryS × List Event) :=
  ctorFromCompositor nextId compositor options

/-- The borrowing-mode constructor SurfaceFactory(graphicsDevice, lock):
take the compositor from the given graphics device, keep a reference to
the device without creating one, use the injected lock when given and a
fresh one otherwise, and subscribe to RenderingDeviceReplaced.  No canvas
device is created and no device-lost helper is allocated. -/
def ctorFromGraphicsDevice (nextId : Nat) (gd : CompositionGraphicsDevice)
    (lock : Option Nat) : FactoryS × List Event :=
  let (lockId, nid) :=
    match lock with
    | none => (nextId, nextId + 1)
    | some l => (l, nextId)
  ({ nextId := nid
     m_compositor := some gd.Compositor
     m_drawingLock := some lockId
     m_isGraphicsDeviceCreator := false
     m_deviceLostHelper := none
     m_canvasDevice := none
     m_graphicsDevice := some gd
     m_deviceReplacedSubscribed := true
     surfaces := [] },
   [Event.subscribeDeviceReplaced gd.id])

/-- SurfaceFactory::CreateFromGraphicsDevice(graphicsDevice): borrowing
mode with no injected lock. -/
def CreateFromGraphicsDevice (nextId : Nat) (gd : CompositionGraphicsDevice) :
    FactoryS × List Event :=
  ctorFromGraphicsDevice nextId gd none

/-- SurfaceFactory::CreateFromGraphicsDevice(graphicsDevice, lock). -/
def CreateFromGraphicsDeviceWithLock (nextId : Nat)
    (gd : CompositionGraphicsDevice) (lock : Nat) : FactoryS × List Event :=
  ctorFromGraphicsDevice nextId gd (some lock)

/-- SurfaceFactory::OnDeviceLost: read the ForceSoftwareRenderer flag of
the current canvas device, construct a new canvas device with that flag,
have the device-lost helper watch the new device, and re-point the
composition graphics device at it.  No lock is taken by the handler. -/
def OnDeviceLost (s : FactoryS) : Except Fault (FactoryS × List Event) :=
  match s.m_canvasDevice with
  | none => .error .nullReference
  | some dev =>
    let softwareRenderer := dev.ForceSoftwareRenderer
    let newId := s.nextId
    match s.m_deviceLostHelper with
    | none => .error .nullReference
    | some _ =>
      match s.m_graphicsDevice with
      | none => .error .nullReference
      | some gd =>
        .ok ({ s with nextId := newId + 1,
                      m_canvasDevice := some ⟨newId, softwareRenderer⟩,
                      m_deviceLostHelper := some ⟨some newId⟩,
                      m_graphicsDevice := some { gd with canvasDeviceId := newId } },
             [Event.createCanvasDevice newId softwareRenderer,
              Event.watchDevice newId,
              Event.setCanvasDevice gd.id newId])

/-- SurfaceFactory::CreateSurface(size): an empty size becomes a 0 by 0
start size; under a lock session on the drawing lock, the graphics device
allocates a drawing surface with B8G8R8A8 premultiplied-alpha format. -/
def CreateSurface (s : FactoryS) (size : Size) :
    Except Fault (Nat × FactoryS × List Event) :=
  let surfaceSize : Int × Int :=
    match size with
    | .empty => (0, 0)
    | .mk w h => (w, h)
  match s.m_drawingLock with
  | none => .error .nullReference
  | some l =>
    match s.m_graphicsDevice with
    | none => .error .nullReference
    | some _ =>
      let sid := s.nextId
      let srec : SurfaceRec :=
        ⟨sid, surfaceSize.1, surfaceSize.2, .B8G8R8A8UIntNormalized,
         .Premultiplied, .uninitialized⟩
      .ok (sid,
           { s with nextId := s.nextId + 1, surfaces := s.surfaces ++ [srec] },
           [Event.lockAcquire l,
            Event.createDrawingSurface sid surfaceSize.1 surfaceSize.2
              .B8G8R8A8UIntNormalized .Premultiplied,
            Event.lockRelease l])

/-- SurfaceFactory::DrawBitmap(surface, canvasBitmap, size, interpolation):
under a lock session, resize the surface to the native bitmap size when
the requested size is empty (otherwise keep the requested size), then in a
draw session clear to transparent and draw the bitmap from its full native
rectangle into the surface rectangle at opacity one with the translated
interpolation mode. -/
def DrawBitmap (s : FactoryS) (sid : Nat) (bmp : CanvasBitmap) (size : Size)
    (interpolation : InterpolationMode) :
    Except Fault (Unit × FactoryS × List Event) :=
  match s.m_drawingLock with
  | none => .error .nullReference
  | some l =>
    match s.findSurface sid with
    | none => .error .nullReference
    | some srec =>
      let (surfaceSize, resizeEvents, srec1) :=
        if size.IsEmpty then
          ((bmp.width, bmp.height),
           [Event.resize sid bmp.width bmp.height],
           { srec with width := bmp.width, height := bmp.height })
        else
          ((match size with | .empty => (0, 0) | .mk w h => (w, h)),
           ([] : List Event), srec)
      let surfaceRect : Rect := ⟨0, 0, surfaceSize.1, surfaceSize.2⟩
      let bitmapRect : Rect := ⟨0, 0, bmp.width, bmp.height⟩
      let canvasInterpolation :=
        InterpolationModeHelper.GetCanvasImageInterpolation interpolation
      let newContent : SurfaceContent :=
        SurfaceContent.image bmp.id surfaceRect bitmapRect 1 canvasInterpolation
      let srec2 := { srec1 with content := newContent }
      .ok ((), s.updateSurface sid srec2,
           Event.lockAcquire l :: resizeEvents ++
           [Event.clear sid Colors.Transparent,
            Event.drawImage sid bmp.id surfaceRect bitmapRect 1
              canvasInterpolation,
            Event.lockRelease l])

/-- SurfaceFactory::DrawSurface(surface, uri, size, interpolation): fetch
the canvas device of the graphics device; with a URI, await the backend
bitmap load (failing when the decode fails) and delegate to DrawBitmap;
with a null URI, under a lock session resize the surface to 1 by 1 and
clear it to transparent. -/
def DrawSurface (s : FactoryS) (sid : Nat) (uri : Option UriData)
    (size : Size) (interpolation : InterpolationMode) :
    Except Fault (Unit × FactoryS × List Event) :=
  match s.m_graphicsDevice with
  | none => .error .nullReference
  | some _ =>
    match uri with
    | some u =>
      match u.decoded with
      | none => .error .backendFailure
      | some (bw, bh) =>
        let bid := s.nextId
        let s1 := { s with nextId := s.nextId + 1 }
        let bmp : CanvasBitmap := ⟨bid, bw, bh⟩
        match DrawBitmap s1 sid bmp size interpolation with
        | .error e => .error e
        | .ok ((), s2, tr) => .ok ((), s2, Event.loadBitmap u.id bid :: tr)
    | none =>
      match s.m_drawingLock with
      | none => .error .nullReference
      | some l =>
        match s.findSurface sid with
        | none => .error .nullReference
        | some srec =>
          let srec1 :=
            { srec with width := 1, height := 1,
                        content := .cleared Colors.Transparent }
          .ok ((), s.updateSurface sid srec1,
               [Event.lockAcquire l, Event.resize sid 1 1,
                Event.clear sid Colors.Transparent, Event.lockRelease l])

/-- SurfaceFactory::CreateSurfaceFromUri(uri, size, interpolation): create
the surface, start the draw without awaiting it, and return the surface.
A failure of the fire-and-forget draw is not observable by the caller: the
surface is returned in the state it had before the failed draw. -/
def CreateSurfaceFromUri (s : FactoryS) (uri : Option UriData) (size : Size)
    (interpolation : InterpolationMode) :
    Except Fault (Nat × FactoryS × List Event) :=
  match CreateSurface s size with
  | .error e => .error e
  | .ok (sid, s1, tr1) =>
    match DrawSurface s1 sid uri size interpolation with
    | .error _ => .ok (sid, s1, tr1)
    | .ok ((), s2, tr2) => .ok (sid, s2, tr1 ++ tr2)

/-- The two-argument overload CreateSurfaceFromUri(uri, size): delegates
with InterpolationMode::Linear. -/
def CreateSurfaceFromUriSized (s : FactoryS) (uri : Option UriData)
    (size : Size) : Except Fault (Nat × FactoryS × List Event) :=
  CreateSurfaceFromUri s uri size .linear

/-- The one-argument overload CreateSurfaceFromUri(uri): delegates with
Size::Empty. -/
def CreateSurfaceFromUriOnly (s : FactoryS) (uri : Option UriData) :
    Except Fault (Nat × FactoryS × List Event) :=
  CreateSurfaceFromUriSized s uri .empty

/-- SurfaceFactory::CreateSurfaceFromUriAsync(uri, size, interpolation):
create the surface, await the draw, and return the surface once drawing
completed.  A draw failure propagates as a failed asynchronous result. -/
def CreateSurfaceFromUriAsync (s : FactoryS) (uri : Option UriData)
    (size : Size) (interpolation : InterpolationMode) :
    Except Fault (Nat × FactoryS × List Event) :=
  match CreateSurface s size with
  | .error e => .error e
  | .ok (sid, s1, tr1) =>
    match DrawSurface s1 sid uri size interpolation with
    | .error e => .error e
    | .ok ((), s2, tr2) => .ok (sid, s2, tr1 ++ tr2)

/-- The two-argument overload CreateSurfaceFromUriAsync(uri, size). -/
def CreateSurfaceFromUriAsyncSized (s : FactoryS) (uri : Option UriData)
    (size : Size) : Except Fault (Nat × FactoryS × List Event) :=
  CreateSurfaceFromUriAsync s uri size .linear

/-- The one-argument overload CreateSurfaceFromUriAsync(uri). -/
def CreateSurfaceFromUriAsyncOnly (s : FactoryS) (uri : Option UriData) :
    Except Fault (Nat × FactoryS × List Event) :=
  CreateSurfaceFromUriAsyncSized s uri .empty

end SurfaceFactory

/-- A UriSurface: the surface handle together with the remembered source
URI, requested size and interpolation mode. -/
structure UriSurface where
  surfaceId : Nat
  uri : Option UriData
  size : Size
  interpolation : InterpolationMode
deriving DecidableEq, Repr

/-- Modelled from the spec: UriSurface::Create lives in UriSurface.cpp,
which is not under src/ (only its caller SurfaceFactory::CreateUriSurface
is).  Per the spec a UriSurface wraps a DrawingSurface created by the
factory plus the parameters needed to regenerate its content. -/
def UriSurface.Create (s : FactoryS) (uri : Option UriData) (size : Size)
    (interpolation : InterpolationMode) :
    Except Fault (UriSurface × FactoryS × List Event) :=
  match SurfaceFactory.CreateSurface s size with
  | .error e => .error e
  | .ok (sid, s1, tr1) => .ok (⟨sid, uri, size, interpolation⟩, s1, tr1)

/-- Modelled from the spec: UriSurface::RedrawSurfaceAsync re-invokes the
draw pipeline of the factory with the stored parameters. -/
def UriSurface.RedrawSurfaceAsync (s : FactoryS) (us : UriSurface) :
    Except Fault (Unit × FactoryS × List Event) :=
  SurfaceFactory.DrawSurface s us.surfaceId us.uri us.size us.interpolation

namespace SurfaceFactory

/-- SurfaceFactory::CreateUriSurface(uri, size, interpolation): create the
UriSurface and start its redraw without awaiting it.  A failure of the
fire-and-forget redraw is not observable by the caller. -/
def CreateUriSurface (s : FactoryS) (uri : Option UriData) (size : Size)
    (interpolation : InterpolationMode) :
    Except Fault (UriSurface × FactoryS × List Event) :=
  match UriSurface.Create s uri size interpolation with
  | .error e => .error e
  | .ok (us, s1, tr1) =>
    match UriSurface.RedrawSurfaceAsync s1 us with
    | .error _ => .ok (us, s1, tr1)
    | .ok ((), s2, tr2) => .ok (us, s2, tr1 ++ tr2)

/-- The two-argument overload CreateUriSurface(uri, size). -/
def CreateUriSurfaceSized (s : FactoryS) (uri : Option UriData) (size : Size) :
    Except Fault (UriSurface × FactoryS × List Event) :=
  CreateUriSurface s uri size .linear

/-- The one-argument overload CreateUriSurface(uri). -/
def CreateUriSurfaceOnly (s : FactoryS) (uri : Option UriData) :
    Except Fault (UriSurface × FactoryS × List Event) :=
  CreateUriSurfaceSized s uri .empty

/-- The zero-argument overload CreateUriSurface(): delegates with a null
URI. -/
def CreateUriSurfaceDefault (s : FactoryS) :
    Except Fault (UriSurface × FactoryS × List Event) :=
  CreateUriSurfaceOnly s none

/-- SurfaceFactory::CreateUriSurfaceAsync(uri, size, interpolation):
create the UriSurface, await its redraw, and return it once drawing
completed. -/
def CreateUriSurfaceAsync (s : FactoryS) (uri : Option UriData) (size : Size)
    (interpolation : InterpolationMode) :
    Except Fault (UriSurface × FactoryS × List Event) :=
  match UriSurface.Create s uri size interpolation with
  | .error e => .error e
  | .ok (us, s1, tr1) =>
    match UriSurface.RedrawSurfaceAsync s1 us with
    | .error e => .error e
    | .ok ((), s2, tr2) => .ok (us, s2, tr1 ++ tr2)

/-- The two-argument overload CreateUriSurfaceAsync(uri, size). -/
def CreateUriSurfaceAsyncSized (s : FactoryS) (uri : Option UriData)
    (size : Size) : Except Fault (UriSurface × FactoryS × List Event) :=
  CreateUriSurfaceAsync s uri size .linear

/-- The one-argument overload CreateUriSurfaceAsync(uri). -/
def CreateUriSurfaceAsyncOnly (s : FactoryS) (uri : Option UriData) :
    Except Fault (UriSurface × FactoryS × List Event) :=
  CreateUriSurfaceAsyncSized s uri .empty

end SurfaceFactory

/-- Modelled from the spec: CanvasBitmap::CreateFromBytes is an operation
of the external graphics backend (the spec lists it as
createBitmapFromBytes among the consumed collaborator operations); it
decodes a raw buffer of the given pixel dimensions into a bitmap and
fails with an InvalidArgument condition when the buffer length differs
from width times height times four bytes per pixel. -/
def CanvasBitmap.CreateFromBytes (s : FactoryS) (bytes : List UInt8)
    (widthInPixels heightInPixels : Int) (_fmt : PixelFormat) :
    Except Fault (CanvasBitmap × FactoryS) :=
  if (bytes.length : Int) = widthInPixels * heightInPixels * 4 then
    let bid := s.nextId
    .ok (⟨bid, widthInPixels, heightInPixels⟩, { s with nextId := s.nextId + 1 })
  else .error .invalidArgument

namespace SurfaceFactory

/-- SurfaceFactory::CreateSurfaceFromBytes(bytes, width, height, size,
interpolation): create the surface, build a bitmap from the bytes on the
canvas device of the graphics device, draw it, and return the surface. -/
def CreateSurfaceFromBytes (s : FactoryS) (bytes : List UInt8)
    (widthInPixels heightInPixels : Int) (size : Size)
    (interpolation : InterpolationMode) :
    Except Fault (Nat × FactoryS × List Event) :=
  match CreateSurface s size with
  | .error e => .error e
  | .ok (sid, s1, tr1) =>
    match s1.m_graphicsDevice with
    | none => .error .nullReference
    | some _ =>
      match CanvasBitmap.CreateFromBytes s1 bytes widthInPixels heightInPixels
          .B8G8R8A8UIntNormalized with
      | .error e => .error e
      | .ok (bmp, s2) =>
        match DrawBitmap s2 sid bmp size interpolation with
        | .error e => .error e
        | .ok ((), s3, tr3) =>
          .ok (sid, s3, tr1 ++ Event.createBitmapFromBytes bmp.id :: tr3)

/-- The four-argument overload CreateSurfaceFromBytes(bytes, width,
height, size). -/
def CreateSurfaceFromBytesSized (s : FactoryS) (bytes : List UInt8)
    (widthInPixels heightInPixels : Int) (size : Size) :
    Except Fault (Nat × FactoryS × List Event) :=
  CreateSurfaceFromBytes s bytes widthInPixels heightInPixels size .linear

/-- The three-argument overload CreateSurfaceFromBytes(bytes, width,
height). -/
def CreateSurfaceFromBytesOnly (s : FactoryS) (bytes : List UInt8)
    (widthInPixels heightInPixels : Int) :
    Except Fault (Nat × FactoryS × List Event) :=
  CreateSurfaceFromBytesSized s bytes widthInPixels heightInPixels .empty

/-- The canvas-device branch of Uninitialize: when a canvas device exists,
stop the device-lost helper watching it, drop the helper, and dispose the
canvas device.  Dereferences the helper, so it faults if the helper has
already been dropped. -/
def uninitCanvasStep (s : FactoryS) : Except Fault (FactoryS × List Event) :=
  match s.m_canvasDevice with
  | none => .ok (s, [])
  | some dev =>
    match s.m_deviceLostHelper with
    | none => .error .nullReference
    | some _ =>
      .ok ({ s with m_deviceLostHelper := none, m_canvasDevice := none },
           [Event.stopWatching, Event.disposeCanvasDevice dev.id])

/-- The graphics-device branch of Uninitialize: when a graphics device is
referenced, unsubscribe from RenderingDeviceReplaced, dispose the device
only when this factory created it, and drop the reference. -/
def uninitGraphicsStep (s : FactoryS) : FactoryS × List Event :=
  match s.m_graphicsDevice with
  | none => (s, [])
  | some gd =>
    (({ s with m_graphicsDevice := none, m_deviceReplacedSubscribed := false }),
     Event.unsubscribeDeviceReplaced gd.id ::
       (if s.m_isGraphicsDeviceCreator then [Event.disposeGraphicsDevice gd.id]
        else []))

/-- SurfaceFactory::Uninitialize: take a lock session on the drawing lock
(dereferencing it, so the call faults when the lock reference has already
been cleared), null the compositor, run the canvas-device and
graphics-device teardown branches, release the lock session, and finally
clear the drawing-lock reference. -/
def Uninitialize (s : FactoryS) : Except Fault (FactoryS × List Event) :=
  match s.m_drawingLock with
  | none => .error .nullReference
  | some l =>
    match uninitCanvasStep { s with m_compositor := none } with
    | .error e => .error e
    | .ok (s2, tr2) =>
      let (s3, tr3) := uninitGraphicsStep s2
      .ok ({ s3 with m_drawingLock := none },
           Event.lockAcquire l :: tr2 ++ tr3 ++ [Event.lockRelease l])

end SurfaceFactory

/-- The size and content a surface handle currently has, if the handle is
known. -/
def surfaceSizeOf (s : FactoryS) (sid : Nat) : Option (Int × Int) :=
  (s.findSurface sid).map (fun r => (r.width, r.height))

/-- The abstract pixel content of a surface handle, if the handle is
known. -/
def surfaceContentOf (s : FactoryS) (sid : Nat) : Option SurfaceContent :=
  (s.findSurface sid).map SurfaceRec.content

/-- A concrete owning-mode factory: the state CreateFromCompositor builds
from allocator seed 0 and compositor handle 0. -/
def sampleOwning : FactoryS :=
  { nextId := 3
    m_compositor := some 0
    m_drawingLock := some 0
    m_isGraphicsDeviceCreator := true
    m_deviceLostHelper := some ⟨some 1⟩
    m_canvasDevice := some ⟨1, false⟩
    m_graphicsDevice := some ⟨2, 0, 1⟩
    m_deviceReplacedSubscribed := true
    surfaces := [] }

/-- The state of the sample owning-mode factory after its first
Uninitialize call ran to completion. -/
def sampleAfterUninit : FactoryS :=
  { nextId := 3
    m_compositor := none
    m_drawingLock := none
    m_isGraphicsDeviceCreator := true
    m_deviceLostHelper := none
    m_canvasDevice := none
    m_graphicsDevice := none
    m_deviceReplacedSubscribed := false
    surfaces := [] }

/-- The event trace OnDeviceLost produces on the sample owning-mode
factory. -/
def sampleDeviceLostTrace : List Event :=
  match SurfaceFactory.OnDeviceLost sampleOwning with
  | .ok (_, tr) => tr
  | .error _ => []

/-- Finding in an appended list when nothing in the front satisfies the
predicate. -/
lemma find?_append_right {α : Type} (p : α → Bool) (l₁ l₂ : List α)
    (h : ∀ x ∈ l₁, p x = false) :
    (l₁ ++ l₂).find? p = l₂.find? p := by
  induction l₁ with
  | nil => rfl
  | cons a t ih =>
    have ha := h a (by simp)
    simp only [List.cons_append, List.find?, ha]
    exact ih (fun x hx => h x (by simp [hx]))

/-- After appending a fresh surface record whose id equals the allocator
value, looking that id up finds exactly the appended record, provided all
prior records carry smaller ids. -/
lemma find?_append_fresh (l : List SurfaceRec) (srec : SurfaceRec) (n : Nat)
    (hids : ∀ r ∈ l, r.id < n) (hid : srec.id = n) :
    (l ++ [srec]).find? (fun r => r.id = n) = some srec := by
  rw [find?_append_right]
  · simp [List.find?, hid]
  · intro r hr
    simp only [decide_eq_false_iff_not]
    exact Nat.ne_of_lt (hids r hr)

/-- Updating the surface a lookup finds makes the lookup find the new
record, provided the new record keeps the looked-up id. -/
lemma find?_map_update (l : List SurfaceRec) (sid : Nat)
    (srec newr : SurfaceRec)
    (hfind : l.find? (fun r => r.id = sid) = some srec)
    (hid : newr.id = sid) :
    (l.map (fun r => if r.id = sid then newr else r)).find?
      (fun r => r.id = sid) = some newr := by
  induction l with
  | nil => simp [List.find?] at hfind
  | cons a t ih =>
    by_cases ha : a.id = sid
    · simp [List.find?, ha, hid]
    · have hb : (decide (a.id = sid)) = false := by simp [ha]
      simp only [List.map_cons, if_neg ha, List.find?_cons, hb] at hfind ⊢
      exact ih hfind

/-- The concrete owning-mode factory after CreateSurface allocated one
surface with handle 3. -/
def sampleWithSurface : FactoryS :=
  { sampleOwning with
      nextId := 4
      surfaces := [⟨3, 0, 0, .B8G8R8A8UIntNormalized, .Premultiplied,
                    .uninitialized⟩] }

/-- C1: the spec requires a second Uninitialize call to be a no-op that
never faults.  The code violates this: the first call clears
m_drawingLock last, so the second call dereferences the null drawing lock
in GetLockSession and raises a null-dereference fault.  Shown on the
concrete owning-mode factory built by CreateFromCompositor. -/
theorem uninitialize_second_call_faults :
    SurfaceFactory.Uninitialize sampleOwning =
      .ok (sampleAfterUninit,
           [Event.lockAcquire 0, Event.stopWatching,
            Event.disposeCanvasDevice 1, Event.unsubscribeDeviceReplaced 2,
            Event.disposeGraphicsDevice 2, Event.lockRelease 0]) ∧
    sampleAfterUninit.m_drawingLock = none ∧
    SurfaceFactory.Uninitialize sampleAfterUninit = .error .nullReference :=
  ⟨rfl, rfl, rfl⟩

/-- C2 counterexample: on a concrete owning-mode factory, the device-lost
recovery trace re-points the compositing device but contains no lock
acquisition or release at all, so the recovery does not execute with the
drawing lock held. -/
theorem onDeviceLost_lock_counterexample :
    sampleDeviceLostTrace.any Event.isSetCanvasDevice = true ∧
    sampleDeviceLostTrace.all (fun e => !e.isLockEvent) = true ∧
    underLock sampleDeviceLostTrace = false := by decide

/-- C2 (amended): for every owning-mode factory with a live device,
watcher and compositing device, the device-lost recovery step executes
entirely outside the drawing lock: OnDeviceLost re-points the
device/compositing-device pair while its trace contains no lock
acquisition or release. -/
theorem onDeviceLost_runs_outside_lock (s : FactoryS) (dev : CanvasDevice)
    (w : DeviceLostHelper) (gd : CompositionGraphicsDevice)
    (_hown : s.m_isGraphicsDeviceCreator = true)
    (hdev : s.m_canvasDevice = some dev)
    (hw : s.m_deviceLostHelper = some w)
    (hgd : s.m_graphicsDevice = some gd) :
    ∃ s1 tr, SurfaceFactory.OnDeviceLost s = .ok (s1, tr) ∧
      tr.any Event.isSetCanvasDevice = true ∧
      tr.all (fun e => !e.isLockEvent) = true := by
  unfold SurfaceFactory.OnDeviceLost
  rw [hdev, hw, hgd]
  exact ⟨_, _, rfl, rfl, rfl⟩

/-- Witness for the amended C2 theorem at the concrete owning-mode
factory. -/
theorem onDeviceLost_runs_outside_lock_witness :
    ∃ s1 tr, SurfaceFactory.OnDeviceLost sampleOwning = .ok (s1, tr) ∧
      tr.any Event.isSetCanvasDevice = true ∧
      tr.all (fun e => !e.isLockEvent) = true :=
  onDeviceLost_runs_outside_lock sampleOwning ⟨1, false⟩ ⟨some 1⟩ ⟨2, 0, 1⟩
    rfl rfl rfl rfl

/-- C4: for every owning-mode factory whose compositing device is bound to
the current canvas device and whose allocated handles are below the
allocator, handling a device-lost notification constructs a new canvas
device with the software-renderer flag of the prior device, re-points the
compositing device at it, makes the watcher watch it, and the resulting
active rendering-device handle differs from the pre-event handle. -/
theorem onDeviceLost_recovery (s : FactoryS) (dev : CanvasDevice)
    (w : DeviceLostHelper) (gd : CompositionGraphicsDevice)
    (_hown : s.m_isGraphicsDeviceCreator = true)
    (hdev : s.m_canvasDevice = some dev)
    (hw : s.m_deviceLostHelper = some w)
    (hgd : s.m_graphicsDevice = some gd)
    (hlink : gd.canvasDeviceId = dev.id)
    (hfresh : dev.id < s.nextId) :
    ∃ s1, SurfaceFactory.OnDeviceLost s =
        .ok (s1, [Event.createCanvasDevice s.nextId dev.ForceSoftwareRenderer,
                  Event.watchDevice s.nextId,
                  Event.setCanvasDevice gd.id s.nextId]) ∧
      s1.m_canvasDevice = some ⟨s.nextId, dev.ForceSoftwareRenderer⟩ ∧
      s1.m_graphicsDevice = some { gd with canvasDeviceId := s.nextId } ∧
      s1.m_deviceLostHelper = some ⟨some s.nextId⟩ ∧
      s.nextId ≠ gd.canvasDeviceId := by
  unfold SurfaceFactory.OnDeviceLost
  rw [hdev, hw, hgd]
  refine ⟨_, rfl, rfl, rfl, rfl, ?_⟩
  rw [hlink]
  exact ne_of_gt hfresh

/-- Witness for the C4 recovery theorem at the concrete owning-mode
factory. -/
theorem onDeviceLost_recovery_witness :
    ∃ s1, SurfaceFactory.OnDeviceLost sampleOwning =
        .ok (s1, [Event.createCanvasDevice 3 false, Event.watchDevice 3,
                  Event.setCanvasDevice 2 3]) ∧
      s1.m_canvasDevice = some ⟨3, false⟩ ∧
      s1.m_graphicsDevice = some ⟨2, 0, 3⟩ ∧
      s1.m_deviceLostHelper = some ⟨some 3⟩ ∧
      (3 : Nat) ≠ 1 :=
  onDeviceLost_recovery sampleOwning ⟨1, false⟩ ⟨some 1⟩ ⟨2, 0, 1⟩
    rfl rfl rfl rfl rfl (by decide)

/-- C10: constructing an owning-mode factory from a compositor without
options equals constructing it with options whose software-renderer flag
is false, and the canvas device the factory then owns has its
ForceSoftwareRenderer flag off, so the default rendering mode is
hardware. -/
theorem createFromCompositor_default_hardware (nextId compositor : Nat) :
    SurfaceFactory.CreateFromCompositor nextId compositor =
      SurfaceFactory.CreateFromCompositorWithOptions nextId compositor
        ⟨false⟩ ∧
    Except.map
        (fun p => p.1.m_canvasDevice.map CanvasDevice.ForceSoftwareRenderer)
        (SurfaceFactory.CreateFromCompositor nextId compositor) =
      .ok (some false) :=
  ⟨rfl, rfl⟩

/-- C7: for every factory with a live drawing lock and graphics device,
CreateSurface allocates under the lock a drawing surface with B8G8R8A8
premultiplied-alpha format whose size is the requested size, or zero by
zero when the requested size is unspecified. -/
theorem createSurface_size_and_format (s : FactoryS) (l : Nat)
    (gd : CompositionGraphicsDevice) (size : Size)
    (hl : s.m_drawingLock = some l)
    (hgd : s.m_graphicsDevice = some gd) :
    (size = .empty →
      SurfaceFactory.CreateSurface s size =
        .ok (s.nextId,
             { s with nextId := s.nextId + 1,
                      surfaces := s.surfaces ++
                        [⟨s.nextId, 0, 0, .B8G8R8A8UIntNormalized,
                          .Premultiplied, .uninitialized⟩] },
             [Event.lockAcquire l,
              Event.createDrawingSurface s.nextId 0 0
                .B8G8R8A8UIntNormalized .Premultiplied,
              Event.lockRelease l]) ∧
      underLock [Event.lockAcquire l,
                 Event.createDrawingSurface s.nextId 0 0
                   .B8G8R8A8UIntNormalized .Premultiplied,
                 Event.lockRelease l] = true) ∧
    (∀ w h, size = .mk w h →
      SurfaceFactory.CreateSurface s size =
        .ok (s.nextId,
             { s with nextId := s.nextId + 1,
                      surfaces := s.surfaces ++
                        [⟨s.nextId, w, h, .B8G8R8A8UIntNormalized,
                          .Premultiplied, .uninitialized⟩] },
             [Event.lockAcquire l,
              Event.createDrawingSurface s.nextId w h
                .B8G8R8A8UIntNormalized .Premultiplied,
              Event.lockRelease l]) ∧
      underLock [Event.lockAcquire l,
                 Event.createDrawingSurface s.nextId w h
                   .B8G8R8A8UIntNormalized .Premultiplied,
                 Event.lockRelease l] = true) := by
  constructor
  · intro he
    subst he
    unfold SurfaceFactory.CreateSurface
    rw [hl, hgd]
    exact ⟨rfl, rfl⟩
  · intro w h he
    subst he
    unfold SurfaceFactory.CreateSurface
    rw [hl, hgd]
    exact ⟨rfl, rfl⟩

/-- Witness for the C7 CreateSurface theorem on the concrete owning-mode
factory with an unspecified size. -/
theorem createSurface_size_and_format_witness :
    SurfaceFactory.CreateSurface sampleOwning .empty =
      .ok (3, sampleWithSurface,
           [Event.lockAcquire 0,
            Event.createDrawingSurface 3 0 0 .B8G8R8A8UIntNormalized
              .Premultiplied,
            Event.lockRelease 0]) ∧
    underLock [Event.lockAcquire 0,
               Event.createDrawingSurface 3 0 0 .B8G8R8A8UIntNormalized
                 .Premultiplied,
               Event.lockRelease 0] = true :=
  (createSurface_size_and_format sampleOwning 0 ⟨2, 0, 1⟩ .empty rfl rfl).1 rfl

/-- C5: for every factory with a live graphics device and drawing lock
and every existing surface, drawing with a null URI resizes the surface
to one by one and clears it to transparent under the lock, so that after
the draw the surface size is one by one and its content is fully
transparent, whatever size and interpolation were requested. -/
theorem drawSurface_null_uri_clears (s : FactoryS) (l : Nat)
    (gd : CompositionGraphicsDevice) (sid : Nat) (srec : SurfaceRec)
    (size : Size) (interpolation : InterpolationMode)
    (hgd : s.m_graphicsDevice = some gd)
    (hl : s.m_drawingLock = some l)
    (hfind : s.findSurface sid = some srec) :
    ∃ s1, SurfaceFactory.DrawSurface s sid none size interpolation =
        .ok ((), s1,
             [Event.lockAcquire l, Event.resize sid 1 1,
              Event.clear sid Colors.Transparent, Event.lockRelease l]) ∧
      surfaceSizeOf s1 sid = some (1, 1) ∧
      surfaceContentOf s1 sid = some (.cleared Colors.Transparent) ∧
      underLock [Event.lockAcquire l, Event.resize sid 1 1,
                 Event.clear sid Colors.Transparent,
                 Event.lockRelease l] = true := by
  have hsid : srec.id = sid := by
    have hp := List.find?_some hfind
    simpa using hp
  have hupd := find?_map_update s.surfaces sid srec
      { srec with width := 1, height := 1,
                  content := .cleared Colors.Transparent } hfind hsid
  unfold SurfaceFactory.DrawSurface
  rw [hgd, hl, hfind]
  refine ⟨_, rfl, ?_, ?_, rfl⟩
  · simp only [surfaceSizeOf, FactoryS.findSurface, FactoryS.updateSurface]
    rw [hupd]
    rfl
  · simp only [surfaceContentOf, FactoryS.findSurface, FactoryS.updateSurface]
    rw [hupd]
    rfl

/-- Witness for the C5 null-URI theorem on the concrete factory with one
surface. -/
theorem drawSurface_null_uri_clears_witness :
    ∃ s1, SurfaceFactory.DrawSurface sampleWithSurface 3 none .empty
        .linear =
        .ok ((), s1,
             [Event.lockAcquire 0, Event.resize 3 1 1,
              Event.clear 3 Colors.Transparent, Event.lockRelease 0]) ∧
      surfaceSizeOf s1 3 = some (1, 1) ∧
      surfaceContentOf s1 3 = some (.cleared Colors.Transparent) ∧
      underLock [Event.lockAcquire 0, Event.resize 3 1 1,
                 Event.clear 3 Colors.Transparent,
                 Event.lockRelease 0] = true :=
  drawSurface_null_uri_clears sampleWithSurface 0 ⟨2, 0, 1⟩ 3
    ⟨3, 0, 0, .B8G8R8A8UIntNormalized, .Premultiplied, .uninitialized⟩
    .empty .linear rfl rfl rfl

/-- C6: for every factory with a live drawing lock and every existing
surface, DrawBitmap works under the lock; with an unspecified requested
size it resizes the surface to the native bitmap size, with a specified
size it leaves the surface size unchanged; it then clears to transparent
and draws the bitmap from its full native rectangle into the full surface
rectangle at opacity one with the translated interpolation mode. -/
theorem drawBitmap_under_lock (s : FactoryS) (l : Nat) (sid : Nat)
    (bmp : CanvasBitmap) (srec : SurfaceRec) (size : Size)
    (interpolation : InterpolationMode)
    (hl : s.m_drawingLock = some l)
    (hfind : s.findSurface sid = some srec) :
    (size = .empty →
      ∃ s1, SurfaceFactory.DrawBitmap s sid bmp size interpolation =
          .ok ((), s1,
               [Event.lockAcquire l, Event.resize sid bmp.width bmp.height,
                Event.clear sid Colors.Transparent,
                Event.drawImage sid bmp.id ⟨0, 0, bmp.width, bmp.height⟩
                  ⟨0, 0, bmp.width, bmp.height⟩ 1
                  (InterpolationModeHelper.GetCanvasImageInterpolation
                    interpolation),
                Event.lockRelease l]) ∧
        surfaceSizeOf s1 sid = some (bmp.width, bmp.height) ∧
        underLock [Event.lockAcquire l,
                   Event.resize sid bmp.width bmp.height,
                   Event.clear sid Colors.Transparent,
                   Event.drawImage sid bmp.id ⟨0, 0, bmp.width, bmp.height⟩
                     ⟨0, 0, bmp.width, bmp.height⟩ 1
                     (InterpolationModeHelper.GetCanvasImageInterpolation
                       interpolation),
                   Event.lockRelease l] = true) ∧
    (∀ w h, size = .mk w h →
      ∃ s1, SurfaceFactory.DrawBitmap s sid bmp size interpolation =
          .ok ((), s1,
               [Event.lockAcquire l,
                Event.clear sid Colors.Transparent,
                Event.drawImage sid bmp.id ⟨0, 0, w, h⟩
                  ⟨0, 0, bmp.width, bmp.height⟩ 1
                  (InterpolationModeHelper.GetCanvasImageInterpolation
                    interpolation),
                Event.lockRelease l]) ∧
        surfaceSizeOf s1 sid = some (srec.width, srec.height) ∧
        underLock [Event.lockAcquire l,
                   Event.clear sid Colors.Transparent,
                   Event.drawImage sid bmp.id ⟨0, 0, w, h⟩
                     ⟨0, 0, bmp.width, bmp.height⟩ 1
                     (InterpolationModeHelper.GetCanvasImageInterpolation
                       interpolation),
                   Event.lockRelease l] = true) := by
  have hsid : srec.id = sid := by
    have hp := List.find?_some hfind
    simpa using hp
  constructor
  · intro he
    subst he
    have hupd := find?_map_update s.surfaces sid srec
        { srec with width := bmp.width, height := bmp.height,
                    content := (SurfaceContent.image bmp.id
                      ⟨0, 0, bmp.width, bmp.height⟩
                      ⟨0, 0, bmp.width, bmp.height⟩ 1
                      (InterpolationModeHelper.GetCanvasImageInterpolation
                        interpolation)) } hfind hsid
    unfold SurfaceFactory.DrawBitmap
    rw [hl, hfind]
    refine ⟨_, rfl, ?_, rfl⟩
    simp only [surfaceSizeOf, FactoryS.findSurface, FactoryS.updateSurface]
    rw [hupd]
    rfl
  · intro w h he
    subst he
    have hupd := find?_map_update s.surfaces sid srec
        { srec with content := (SurfaceContent.image bmp.id
            ⟨0, 0, w, h⟩
            ⟨0, 0, bmp.width, bmp.height⟩ 1
            (InterpolationModeHelper.GetCanvasImageInterpolation
              interpolation)) } hfind hsid
    unfold SurfaceFactory.DrawBitmap
    rw [hl, hfind]
    refine ⟨_, rfl, ?_, rfl⟩
    simp only [surfaceSizeOf, FactoryS.findSurface, FactoryS.updateSurface]
    rw [hupd]
    rfl

/-- Witness for the C6 DrawBitmap theorem on the concrete factory with
one surface, a two-by-two bitmap and an unspecified requested size. -/
theorem drawBitmap_under_lock_witness :
    ∃ s1, SurfaceFactory.DrawBitmap sampleWithSurface 3 ⟨7, 2, 2⟩ .empty
        .nearestNeighbor =
        .ok ((), s1,
             [Event.lockAcquire 0, Event.resize 3 2 2,
              Event.clear 3 Colors.Transparent,
              Event.drawImage 3 7 ⟨0, 0, 2, 2⟩ ⟨0, 0, 2, 2⟩ 1
                .nearestNeighbor,
              Event.lockRelease 0]) ∧
      surfaceSizeOf s1 3 = some (2, 2) ∧
      underLock [Event.lockAcquire 0, Event.resize 3 2 2,
                 Event.clear 3 Colors.Transparent,
                 Event.drawImage 3 7 ⟨0, 0, 2, 2⟩ ⟨0, 0, 2, 2⟩ 1
                   .nearestNeighbor,
                 Event.lockRelease 0] = true :=
  (drawBitmap_under_lock sampleWithSurface 0 3 ⟨7, 2, 2⟩
    ⟨3, 0, 0, .B8G8R8A8UIntNormalized, .Premultiplied, .uninitialized⟩
    .empty .nearestNeighbor rfl rfl).1 rfl

/-- C8: a borrowing-mode factory never creates or owns a canvas device,
runs no device-loss watcher, registers for device-replaced notifications
at construction, and its teardown only unsubscribes: the Uninitialize
trace is exactly lock acquire, unsubscribe, lock release, with no watcher
stop and no disposal of the borrowed compositing device. -/
theorem borrowing_mode_lifecycle (nextId : Nat)
    (gd : CompositionGraphicsDevice) (lock : Option Nat) :
    (SurfaceFactory.ctorFromGraphicsDevice nextId gd
        lock).1.m_isGraphicsDeviceCreator = false ∧
    (SurfaceFactory.ctorFromGraphicsDevice nextId gd
        lock).1.m_canvasDevice = none ∧
    (SurfaceFactory.ctorFromGraphicsDevice nextId gd
        lock).1.m_deviceLostHelper = none ∧
    (SurfaceFactory.ctorFromGraphicsDevice nextId gd
        lock).1.m_deviceReplacedSubscribed = true ∧
    (SurfaceFactory.ctorFromGraphicsDevice nextId gd
        lock).1.m_graphicsDevice = some gd ∧
    (SurfaceFactory.ctorFromGraphicsDevice nextId gd lock).2 =
      [Event.subscribeDeviceReplaced gd.id] ∧
    ∃ lid s1,
      (SurfaceFactory.ctorFromGraphicsDevice nextId gd
          lock).1.m_drawingLock = some lid ∧
      SurfaceFactory.Uninitialize
          (SurfaceFactory.ctorFromGraphicsDevice nextId gd lock).1 =
        .ok (s1, [Event.lockAcquire lid,
                  Event.unsubscribeDeviceReplaced gd.id,
                  Event.lockRelease lid]) ∧
      s1.m_graphicsDevice = none := by
  cases lock with
  | none => exact ⟨rfl, rfl, rfl, rfl, rfl, rfl, nextId, _, rfl, rfl, rfl⟩
  | some l => exact ⟨rfl, rfl, rfl, rfl, rfl, rfl, l, _, rfl, rfl, rfl⟩

/-- C9: for each creation operation with optional size and interpolation
parameters, the overload omitting the size behaves as the full form with
an unspecified size, and the overload omitting the interpolation behaves
as the full form with linear interpolation. -/
theorem creation_overload_defaults :
    (∀ s uri, SurfaceFactory.CreateSurfaceFromUriOnly s uri =
      SurfaceFactory.CreateSurfaceFromUri s uri .empty .linear) ∧
    (∀ s uri size, SurfaceFactory.CreateSurfaceFromUriSized s uri size =
      SurfaceFactory.CreateSurfaceFromUri s uri size .linear) ∧
    (∀ s uri, SurfaceFactory.CreateSurfaceFromUriAsyncOnly s uri =
      SurfaceFactory.CreateSurfaceFromUriAsync s uri .empty .linear) ∧
    (∀ s uri size, SurfaceFactory.CreateSurfaceFromUriAsyncSized s uri size =
      SurfaceFactory.CreateSurfaceFromUriAsync s uri size .linear) ∧
    (∀ s uri, SurfaceFactory.CreateUriSurfaceOnly s uri =
      SurfaceFactory.CreateUriSurface s uri .empty .linear) ∧
    (∀ s uri size, SurfaceFactory.CreateUriSurfaceSized s uri size =
      SurfaceFactory.CreateUriSurface s uri size .linear) ∧
    (∀ s uri, SurfaceFactory.CreateUriSurfaceAsyncOnly s uri =
      SurfaceFactory.CreateUriSurfaceAsync s uri .empty .linear) ∧
    (∀ s uri size, SurfaceFactory.CreateUriSurfaceAsyncSized s uri size =
      SurfaceFactory.CreateUriSurfaceAsync s uri size .linear) ∧
    (∀ s bytes w h, SurfaceFactory.CreateSurfaceFromBytesOnly s bytes w h =
      SurfaceFactory.CreateSurfaceFromBytes s bytes w h .empty .linear) ∧
    (∀ s bytes w h size,
      SurfaceFactory.CreateSurfaceFromBytesSized s bytes w h size =
      SurfaceFactory.CreateSurfaceFromBytes s bytes w h size .linear) :=
  ⟨fun _ _ => rfl, fun _ _ _ => rfl, fun _ _ => rfl, fun _ _ _ => rfl,
   fun _ _ => rfl, fun _ _ _ => rfl, fun _ _ => rfl, fun _ _ _ => rfl,
   fun _ _ _ _ => rfl, fun _ _ _ _ _ => rfl⟩

/-- C3: for every factory with a live drawing lock and graphics device,
CreateSurfaceFromBytes succeeds on every byte buffer whose length equals
width times height times four, and fails with an InvalidArgument
condition on a buffer of any other length. -/
theorem createSurfaceFromBytes_length_check (s : FactoryS) (l : Nat)
    (gd : CompositionGraphicsDevice) (bytes : List UInt8) (w h : Int)
    (size : Size) (interpolation : InterpolationMode)
    (hl : s.m_drawingLock = some l)
    (hgd : s.m_graphicsDevice = some gd)
    (hids : ∀ r ∈ s.surfaces, r.id < s.nextId) :
    ((bytes.length : Int) = w * h * 4 →
      ∃ sid s1 tr, SurfaceFactory.CreateSurfaceFromBytes s bytes w h size
          interpolation = .ok (sid, s1, tr)) ∧
    ((bytes.length : Int) ≠ w * h * 4 →
      SurfaceFactory.CreateSurfaceFromBytes s bytes w h size interpolation =
        .error .invalidArgument) := by
  obtain ⟨n, comp, dlock, creator, helper, cdev, gdev, sub, surfs⟩ := s
  dsimp only at hl hgd hids
  subst hl
  subst hgd
  constructor
  · intro hlen
    cases size with
    | empty =>
      unfold SurfaceFactory.CreateSurfaceFromBytes SurfaceFactory.CreateSurface
        CanvasBitmap.CreateFromBytes SurfaceFactory.DrawBitmap
      dsimp only
      rw [if_pos hlen]
      dsimp only [FactoryS.findSurface]
      rw [find?_append_fresh surfs _ n hids rfl]
      exact ⟨_, _, _, rfl⟩
    | mk sw sh =>
      unfold SurfaceFactory.CreateSurfaceFromBytes SurfaceFactory.CreateSurface
        CanvasBitmap.CreateFromBytes SurfaceFactory.DrawBitmap
      dsimp only
      rw [if_pos hlen]
      dsimp only [FactoryS.findSurface]
      rw [find?_append_fresh surfs _ n hids rfl]
      exact ⟨_, _, _, rfl⟩
  · intro hlen
    cases size with
    | empty =>
      unfold SurfaceFactory.CreateSurfaceFromBytes SurfaceFactory.CreateSurface
        CanvasBitmap.CreateFromBytes
      dsimp only
      rw [if_neg hlen]
    | mk sw sh =>
      unfold SurfaceFactory.CreateSurfaceFromBytes SurfaceFactory.CreateSurface
        CanvasBitmap.CreateFromBytes
      dsimp only
      rw [if_neg hlen]

/-- Witness for the C3 length-check theorem: a four-byte buffer for a one
by one surface succeeds, a three-byte buffer fails with InvalidArgument. -/
theorem createSurfaceFromBytes_length_check_witness :
    (∃ sid s1 tr, SurfaceFactory.CreateSurfaceFromBytes sampleOwning
        [0, 0, 0, 0] 1 1 .empty .linear = .ok (sid, s1, tr)) ∧
    SurfaceFactory.CreateSurfaceFromBytes sampleOwning
        [0, 0, 0] 1 1 .empty .linear = .error .invalidArgument :=
  ⟨(createSurfaceFromBytes_length_check sampleOwning 0 ⟨2, 0, 1⟩
      [0, 0, 0, 0] 1 1 .empty .linear rfl rfl
      (by simp [sampleOwning])).1 (by decide),
   (createSurfaceFromBytes_length_check sampleOwning 0 ⟨2, 0, 1⟩
      [0, 0, 0] 1 1 .empty .linear rfl rfl
      (by simp [sampleOwning])).2 (by decide)⟩

end CSF
